import Mathlib

/-!
Verification of the SimCLR fine-tuning repository (files `training.py` and
`simclr.py`) against its natural-language specification.

The Python code is shallowly embedded: per-batch scalar losses are modelled
as rationals, state dicts as association lists from parameter names to
tensors (a tensor being a shape together with rational entries), and the
side effects of the training loop (metric logging, checkpoint saving,
barriers, ...) as an explicit trace of effect events.  Python runtime
errors relevant to the claims are modelled by the `PyError` type and
fallible code returns `Except PyError _`.
-/

set_option maxRecDepth 4000

namespace SimCLRSpec

/-- Python runtime errors that the embedded fragments can raise. -/
inductive PyError where
  /-- `UnboundLocalError`: a local variable is read before assignment. -/
  | unboundLocal
  /-- `ZeroDivisionError`. -/
  | zeroDivision
  /-- `AttributeError`: a namespace attribute that was never defined is read. -/
  | attributeError
  /-- `KeyError`: a dictionary is indexed with a missing key. -/
  | keyError
  /-- `RuntimeError` raised by `load_state_dict` on a name/shape mismatch. -/
  | stateMismatch
  deriving DecidableEq, Repr

/-!
## `train_one_epoch` (training.py, lines 104-141)

The loop `for step, batch in enumerate(train_dataloader)` accumulates
`loss.item()` for each batch into `running_average_loss`, leaving `step`
bound to the index of the last batch.  We model the loop by `lossLoop`,
threading the accumulator and the (initially unbound, hence `Option ℕ`)
loop variable `step`; each per-batch loss is an input rational, so batch
sizes play no role, exactly as in the code where each batch contributes a
single `loss.item()` summand.
-/

/-- The body of the training loop of `train_one_epoch`: fold the per-batch
losses into the running sum, updating the `enumerate` counter `step`
(`none` models a still-unbound Python local). -/
def lossLoop : List ℚ → ℚ → Option ℕ → ℚ × Option ℕ
  | [], acc, st => (acc, st)
  | l :: rest, acc, st => lossLoop rest (acc + l) (some (st.elim 0 Nat.succ))

/-- The per-process part of `train_one_epoch`: run the training loop, then
normalize by `step + 1`.  With zero batches the Python local `step` was
never assigned, so the statement `running_average_loss /= (step+1)` raises
`UnboundLocalError`; a division by zero would require `step + 1 = 0`. -/
def train_one_epoch_local (losses : List ℚ) : Except PyError ℚ :=
  match lossLoop losses 0 none with
  | (_, none) => .error .unboundLocal
  | (acc, some k) =>
      if ((k : ℚ) + 1) = 0 then .error .zeroDivision
      else .ok (acc / ((k : ℚ) + 1))

/-- `dist.all_reduce` with `ReduceOp.AVG` (training.py, lines 137-139):
every participating process receives the arithmetic mean of the values
contributed by all processes. -/
def allReduceAvg (vals : List ℚ) : ℚ := vals.sum / vals.length

/-- `train_one_epoch` as seen by one process: the local batch-count
average, followed, when `distributed` holds, by the all-reduce average over
the local averages `peerAvgs` of all processes (this process included). -/
def train_one_epoch (losses : List ℚ) (distributed : Bool)
    (peerAvgs : List ℚ) : Except PyError ℚ :=
  (train_one_epoch_local losses).map
    (fun a => if distributed then allReduceAvg peerAvgs else a)

/-- The batch-count-normalized average of a list of per-batch losses, the
quantity the spec calls the local average loss. -/
def localAvg (losses : List ℚ) : ℚ := losses.sum / losses.length

/-- A distributed run of `train_one_epoch` over all `N` processes at once:
process `p` holds the per-batch losses `batchLosses[p]`; every process
computes its local average and then all of them exchange these through the
single `all_reduce(AVG)` call, so every process returns the same value. -/
def train_one_epoch_dist (batchLosses : List (List ℚ)) :
    Except PyError (List ℚ) :=
  (batchLosses.mapM train_one_epoch_local).map
    (fun locals => batchLosses.map (fun _ => allReduceAvg locals))

/-!
## Checkpoint paths (training.py, lines 279-286)

`outer_folder, inner_folder = writer.log_dir.rsplit('/', 1)` splits the
writer's log directory at its last `/`; the checkpoint is then written to
`outer_folder + '_models/' + inner_folder + f'/epoch_{epoch+1}.pth'`.
-/

/-- Python's `s.rsplit('/', 1)` restricted to the two-element unpacking the
code performs: split a character list at its LAST `/`, returning the parts
before and after it, or `none` when there is no `/` (in Python the
two-variable unpacking of the one-element result then raises). -/
def rsplitSlash : List Char → Option (List Char × List Char)
  | [] => none
  | a :: rest =>
      match rsplitSlash rest with
      | some (o, i) => some (a :: o, i)
      | none => if a = '/' then some ([], rest) else none

/-- The checkpoint path built by `train` for the (0-indexed) epoch `e`,
as a character list: `outer ++ "_models/" ++ inner ++ "/epoch_" ++
repr (e+1) ++ ".pth"` where `outer`/`inner` split the log dir at its last
slash. -/
def checkpointPathL (logDir : List Char) (e : ℕ) : Option (List Char) :=
  match rsplitSlash logDir with
  | none => none
  | some (o, i) =>
      some (o ++ ("_models/").data ++ i ++ ("/epoch_").data ++
        (Nat.repr (e + 1)).data ++ (".pth").data)

/-- String-level wrapper of `checkpointPathL`. -/
def checkpointPath (logDir : String) (e : ℕ) : Option String :=
  (checkpointPathL logDir.data e).map String.mk

/-!
## Effect trace of a full run (training.py: `train`, lines 226-291, and the
rank-0 writer setup in `main`, lines 395-404)

Every externally visible action of the training loop is recorded as an
`Eff` event, in program order.  Scalar values (losses, learning rates) are
irrelevant to the traced claims and are omitted from the events.
-/

/-- Observable effects of a run. -/
inductive Eff where
  /-- `os.makedirs(folder + '_models/' + timestamp)` in `main` (rank 0). -/
  | makedirs (path : String)
  /-- `sampler.set_epoch(epoch)` (distributed only). -/
  | setEpoch (e : ℕ)
  /-- The `train_one_epoch` call of epoch `e` (every process). -/
  | trainEpoch (e : ℕ)
  /-- The `validate_one_epoch` call of epoch `e` (rank 0, with val set). -/
  | validateEpoch (e : ℕ)
  /-- The per-epoch status line printed by rank 0. -/
  | printLine (e : ℕ)
  /-- `writer.add_scalar(tag, _, e)`: a metric write to the log dir. -/
  | addScalar (tag : String) (e : ℕ)
  /-- `model.save(path)`: the checkpoint write of epoch `e`. -/
  | saveCkpt (path : Option String) (e : ℕ)
  /-- `dist.barrier()` at the end of epoch `e` (distributed only). -/
  | barrier (e : ℕ)
  deriving DecidableEq, Repr

/-- The effects of one iteration of the epoch loop of `train` (lines
238-291), for a process of global rank `rank`: optional sampler epoch,
the training pass, the rank-0-only validation pass, the rank-0-only
logging and checkpoint save, and the final barrier. -/
def epochBlock (rank : ℕ) (distributed hasVal : Bool) (writerLogDir : String)
    (e : ℕ) : List Eff :=
  (if distributed then [.setEpoch e] else []) ++
  [.trainEpoch e] ++
  (if hasVal && rank == 0 then [.validateEpoch e] else []) ++
  (if rank == 0 then
      [.printLine e, .addScalar "Loss/train" e] ++
      (if hasVal then [.addScalar "Loss/validation" e] else []) ++
      [.addScalar "Misc/learning_rate" e,
       .saveCkpt (checkpointPath writerLogDir e) e]
    else []) ++
  (if distributed then [.barrier e] else [])

/-- The effect trace of `train`: the epoch loop over `range epochs`. -/
def trainTrace (epochs rank : ℕ) (distributed hasVal : Bool)
    (writerLogDir : String) : List Eff :=
  (List.range epochs).flatMap (epochBlock rank distributed hasVal writerLogDir)

/-- Whether `main` builds a validation loader: `args.val_dataset != 'None'`
(training.py, lines 388-393); the sentinel string disables validation. -/
def valEnabled (valDataset : String) : Bool := valDataset != "None"

/-- The effect trace of a full run: the rank-0-only `os.makedirs` of the
checkpoint folder in `main` (lines 396-402), then `train` with a writer
whose log dir is `logDir ++ "/" ++ timestamp` (line 399) and with the
validation loader gated on the `val_dataset` sentinel. -/
def runTrace (epochs rank : ℕ) (distributed : Bool)
    (valDataset logDir timestamp : String) : List Eff :=
  (if rank == 0 then [.makedirs (logDir ++ "_models/" ++ timestamp)] else []) ++
  trainTrace epochs rank distributed (valEnabled valDataset)
    (logDir ++ "/" ++ timestamp)

/-- Events that write to the filesystem under the log or checkpoint
directories: directory creation, metric logging, checkpoint saving. -/
def isFsWrite : Eff → Bool
  | .makedirs _ => true
  | .addScalar _ _ => true
  | .saveCkpt _ _ => true
  | _ => false

/-- Number of checkpoint-save events for epoch index `e` in a trace. -/
def ckptSavesAt (tr : List Eff) (e : ℕ) : ℕ :=
  (tr.filter fun x => match x with | .saveCkpt _ e' => e' == e | _ => false).length

/-!
## `main` before the training loop (training.py, lines 321-352) and the
attribute set produced by `parse_args` (lines 423-497)

`main` evaluates `args.model` (line 351) and
`SimCLR.load(path, args.arch_depth, args.arch_width, args.arch_sk)`
(line 352), but `parse_args` never defines any of these four attributes,
so the first of these reads raises `AttributeError`.
-/

/-- The steps of `main` we track, in program order. -/
inductive MainStep where
  /-- Read of attribute `a` of the `args` namespace. -/
  | readAttr (a : String)
  /-- `setup(rank, args)`: process-group initialization. -/
  | setupGroup
  /-- The `SimCLR.load` call. -/
  | loadModel
  /-- The `train(...)` call: the whole training loop. -/
  | trainCall
  /-- `dist.destroy_process_group()`. -/
  | teardown
  deriving DecidableEq, Repr

/-- The attributes `parse_args` defines on the returned namespace: one per
`add_argument` call (lines 437-483) plus `world_size` (line 488). -/
def parse_args_attrs : List String :=
  ["train_dataset", "val_dataset", "size", "jitter",
   "optimizer", "lr", "epochs", "batch_size", "temperature",
   "weight_decay", "momentum", "nesterov", "scheduler",
   "nodes", "node_index", "gpus", "workers", "log_dir",
   "master_address", "master_port", "seed", "world_size"]

/-- The steps of `main` in program order (lines 341-419); `multi` selects
the `args.world_size > 1` branches. -/
def mainSteps (multi : Bool) : List MainStep :=
  [.readAttr "node_index", .readAttr "gpus", .readAttr "world_size"] ++
  (if multi then
      [.readAttr "master_address", .readAttr "master_port",
       .readAttr "world_size", .setupGroup]
    else []) ++
  [.readAttr "seed", .readAttr "model",
   .readAttr "arch_depth", .readAttr "arch_width", .readAttr "arch_sk",
   .loadModel, .readAttr "world_size", .readAttr "epochs",
   .readAttr "optimizer", .readAttr "lr", .readAttr "weight_decay",
   .readAttr "momentum", .readAttr "nesterov", .readAttr "scheduler",
   .readAttr "temperature", .readAttr "train_dataset", .readAttr "size",
   .readAttr "jitter", .readAttr "val_dataset", .readAttr "world_size",
   .readAttr "batch_size", .readAttr "workers", .readAttr "log_dir",
   .readAttr "epochs", .trainCall] ++
  (if multi then [.readAttr "world_size", .teardown] else [])

/-- Execute `main`'s steps against a namespace holding exactly the
attributes `ns`: stop at the first read of an undefined attribute with an
`AttributeError`, returning the executed prefix and the error, if any. -/
def runSteps (ns : List String) : List MainStep → List MainStep × Option PyError
  | [] => ([], none)
  | .readAttr a :: rest =>
      if a ∈ ns then
        let r := runSteps ns rest
        (.readAttr a :: r.1, r.2)
      else ([.readAttr a], some .attributeError)
  | s :: rest =>
      let r := runSteps ns rest
      (s :: r.1, r.2)

/-!
## `SimCLR.save` / `SimCLR.load` (simclr.py, lines 61-111)
-/

/-- A parameter tensor: a shape and rational entries. -/
structure Tensor where
  shape : List ℕ
  entries : List ℚ
  deriving DecidableEq, Repr

/-- A `state_dict`: parameter names mapped to tensors, in module order. -/
abbrev StateDict := List (String × Tensor)

/-- A module's architecture as `load_state_dict` checks it: its parameter
names with their shapes. -/
def archOf (sd : StateDict) : List (String × List ℕ) :=
  sd.map (fun p => (p.1, p.2.shape))

/-- `module.load_state_dict(sd)`: succeeds, the module's parameters
becoming those of `sd`, exactly when names and shapes match; otherwise it
raises (modelled as `stateMismatch`), with no partial-load recovery. -/
def load_state_dict (module sd : StateDict) : Except PyError StateDict :=
  if archOf module = archOf sd then .ok sd else .error .stateMismatch

/-- The SimCLR composite: an encoder and a contrastive head, modelled by
their parameter state. -/
structure SimCLR where
  encoder : StateDict
  contrastive_head : StateDict
  deriving DecidableEq, Repr

/-- `SimCLR.save` (lines 61-78): the serialized checkpoint, a mapping with
the two keys `encoder` and `head`. -/
def SimCLR.save (m : SimCLR) : List (String × StateDict) :=
  [("encoder", m.encoder), ("head", m.contrastive_head)]

/-- `checkpoint[k]`: dictionary lookup, raising `KeyError` when absent. -/
def getKey (ck : List (String × StateDict)) (k : String) :
    Except PyError StateDict :=
  match ck.lookup k with
  | some v => .ok v
  | none => .error .keyError

/-- `SimCLR.load` (lines 81-111): read the checkpoint, inject the
`encoder` and `head` entries into the two provided instances via
`load_state_dict`, and return a newly constructed composite of exactly
those instances.  The four steps are sequenced exactly as in the source:
`checkpoint['encoder']`, its `load_state_dict`, `checkpoint['head']`, its
`load_state_dict`; the first failure propagates. -/
def SimCLR.load (ck : List (String × StateDict))
    (encoder_arch head_arch : StateDict) : Except PyError SimCLR :=
  match getKey ck "encoder" with
  | .error err => .error err
  | .ok e =>
      match load_state_dict encoder_arch e with
      | .error err => .error err
      | .ok enc =>
          match getKey ck "head" with
          | .error err => .error err
          | .ok h =>
              match load_state_dict head_arch h with
              | .error err => .error err
              | .ok hd => .ok ⟨enc, hd⟩

/-!
## Learning-rate resolution in `parse_args` (training.py, lines 486-495)
-/

/-- `args.world_size = args.nodes * args.gpus` (line 488). -/
def world_size (nodes gpus : ℕ) : ℕ := nodes * gpus

/-- The learning rate `parse_args` returns: if the `--lr` argument is `0`
it is replaced by `0.005 * sqrt(batch_size * world_size)` (lines 494-495),
otherwise kept. -/
noncomputable def resolveLr (lr : ℚ) (batch_size nodes gpus : ℕ) : ℝ :=
  if lr = 0 then
    0.005 * Real.sqrt ((batch_size * world_size nodes gpus : ℕ) : ℝ)
  else (lr : ℝ)

/-!
## Theorems
-/

/-- Running the loop body with `step` already bound adds the remaining
losses to the accumulator and advances `step` by the number of batches. -/
theorem lossLoop_some (losses : List ℚ) (acc : ℚ) (k : ℕ) :
    lossLoop losses acc (some k) = (acc + losses.sum, some (k + losses.length)) := by
  induction losses generalizing acc k with
  | nil => simp [lossLoop]
  | cons l rest ih =>
      simp only [lossLoop, Option.elim, List.sum_cons, List.length_cons, ih,
        Prod.mk.injEq, Option.some.injEq]
      exact ⟨by ring, by omega⟩

/-- On a non-empty loader, the local part of `train_one_epoch` returns the
batch-count-normalized average of the per-batch losses. -/
theorem train_one_epoch_local_eq (losses : List ℚ) (h : losses ≠ []) :
    train_one_epoch_local losses = .ok (localAvg losses) := by
  match losses, h with
  | l :: rest, _ =>
      have hpos : ((rest.length : ℚ) + 1) ≠ 0 := by positivity
      simp only [train_one_epoch_local, lossLoop, Option.elim, lossLoop_some,
        Nat.zero_add, zero_add]
      rw [if_neg hpos]
      simp only [localAvg, List.sum_cons, List.length_cons]
      push_cast
      ring_nf

/-- C1: for every non-empty training loader yielding per-batch losses
`l0..lk`, `train_one_epoch` with `distributed = False` returns the
batch-count-normalized arithmetic mean `(l0 + ... + lk) / (k+1)` of the
per-batch losses — batch sizes never enter, since each batch contributes
the single summand `loss.item()`. -/
theorem train_one_epoch_mean (losses peerAvgs : List ℚ) (h : losses ≠ []) :
    train_one_epoch losses false peerAvgs = .ok (losses.sum / losses.length) := by
  unfold train_one_epoch
  rw [train_one_epoch_local_eq losses h]
  rfl

/-- Witness for C1: three batches with losses 1, 2, 4 average to 7/3. -/
theorem train_one_epoch_mean_witness :
    train_one_epoch [(1 : ℚ), 2, 4] false [] = .ok (7 / 3) := by
  have h := train_one_epoch_mean [(1 : ℚ), 2, 4] [] (by decide)
  norm_num [List.sum_cons, List.length_cons] at h
  exact h

/-- C2 as stated is false: on an empty loader the normalization statement
`running_average_loss /= (step+1)` raises `UnboundLocalError` (the loop
variable `step` was never assigned), not a division-by-zero. -/
theorem empty_loader_not_div_zero :
    train_one_epoch_local [] = .error .unboundLocal ∧
    train_one_epoch_local [] ≠ .error .zeroDivision := by
  constructor
  · rfl
  · intro hc
    exact PyError.noConfusion (Except.error.inj hc)

/-- C2 (amended): on an empty loader `train_one_epoch` fails at the
loss-normalization step — with an unbound-local-variable error on the loop
variable `step`, not a division-by-zero — and a non-empty loader is the
precondition under which the failure is unreachable. -/
theorem empty_loader_unbound_local :
    train_one_epoch_local [] = .error .unboundLocal ∧
    (∀ losses : List ℚ, losses ≠ [] → ∃ q, train_one_epoch_local losses = .ok q) :=
  ⟨rfl, fun losses h => ⟨localAvg losses, train_one_epoch_local_eq losses h⟩⟩

/-- Witness for C2: a one-batch loader succeeds. -/
theorem empty_loader_unbound_local_witness :
    ∃ q, train_one_epoch_local [(5 : ℚ)] = .ok q :=
  empty_loader_unbound_local.2 [(5 : ℚ)] (by decide)

/-- When every process has at least one batch, all local epoch runs
succeed and produce the per-process local averages. -/
theorem mapM_local (bl : List (List ℚ)) (h : ∀ l ∈ bl, l ≠ []) :
    bl.mapM train_one_epoch_local = .ok (bl.map localAvg) := by
  induction bl with
  | nil => rfl
  | cons l rest ih =>
      have hl : l ≠ [] := h l (List.mem_cons_self l rest)
      have hrest : ∀ x ∈ rest, x ≠ [] := fun x hx => h x (List.mem_cons_of_mem l hx)
      rw [List.mapM_cons, train_one_epoch_local_eq l hl, ih hrest]
      rfl

/-- C10: in a distributed run with `N` processes each computing a local
batch-count-normalized average, `train_one_epoch` returns on every process
the unweighted arithmetic mean of the `N` local averages (the all-reduce
averages the already-normalized values, so per-process batch counts play
no role). -/
theorem distributed_loss_mean (bl : List (List ℚ)) (hne : bl ≠ [])
    (h : ∀ l ∈ bl, l ≠ []) :
    train_one_epoch_dist bl =
      .ok (bl.map (fun _ => (bl.map localAvg).sum / bl.length)) := by
  unfold train_one_epoch_dist
  rw [mapM_local bl h]
  simp [Except.map, allReduceAvg, List.length_map]

/-- Witness for C10: two processes with local averages 3/2 and 4; every
process receives (3/2 + 4) / 2 = 11/4. -/
theorem distributed_loss_mean_witness :
    train_one_epoch_dist [[(1 : ℚ), 2], [4]] = .ok [11 / 4, 11 / 4] := by
  have h := distributed_loss_mean [[(1 : ℚ), 2], [4]] (by decide) (by decide)
  norm_num [localAvg, List.sum_cons, List.length_cons] at h
  exact h


/-- A character list without `/` has no last-slash split. -/
theorem rsplitSlash_no_slash (l : List Char) (h : '/' ∉ l) :
    rsplitSlash l = none := by
  induction l with
  | nil => rfl
  | cons a rest ih =>
      have ha : ¬a = '/' := fun hc => h (hc ▸ List.mem_cons_self a rest)
      have hr : '/' ∉ rest := fun hc => h (List.mem_cons_of_mem a hc)
      simp [rsplitSlash, ih hr, ha]

/-- `rsplitSlash` splits at the LAST slash: prefixing anything to a
slash-free suffix preceded by `/` leaves the split point unchanged. -/
theorem rsplitSlash_append (o i : List Char) (h : '/' ∉ i) :
    rsplitSlash (o ++ '/' :: i) = some (o, i) := by
  induction o with
  | nil => simp [rsplitSlash, rsplitSlash_no_slash i h]
  | cons a o' ih => simp [rsplitSlash, ih]

/-- C5: the checkpoint path is obtained by splitting the writer's log
directory at its last `/` into `outer` and `inner` and equals
`outer ++ "_models/" ++ inner ++ "/epoch_" ++ repr (e+1) ++ ".pth"`, the
filename epoch number being 1-indexed; in particular `runs/exp1` at epoch
index 4 yields `runs_models/exp1/epoch_5.pth`. -/
theorem checkpoint_path_formation :
    (∀ (o i : List Char) (e : ℕ), '/' ∉ i →
      checkpointPathL (o ++ '/' :: i) e =
        some (o ++ ("_models/").data ++ i ++ ("/epoch_").data ++
          (Nat.repr (e + 1)).data ++ (".pth").data)) ∧
    checkpointPath "runs/exp1" 4 = some "runs_models/exp1/epoch_5.pth" := by
  constructor
  · intro o i e h
    unfold checkpointPathL
    rw [rsplitSlash_append o i h]
  · rfl

/-- Witness for C5: the general formation rule applied to the concrete
split "runs" / "exp1" at epoch index 4. -/
theorem checkpoint_path_formation_witness :
    checkpointPathL (("runs").data ++ '/' :: ("exp1").data) 4 =
      some (("runs").data ++ ("_models/").data ++ ("exp1").data ++
        ("/epoch_").data ++ (Nat.repr 5).data ++ (".pth").data) :=
  checkpoint_path_formation.1 ("runs").data ("exp1").data 4 (by decide)

/-- C4: when the `--lr` argument is 0, `parse_args` resolves the learning
rate to `0.005 * sqrt (batch_size * world_size)` with
`world_size = nodes * gpus`; for `batch_size = 32` and `world_size = 8`
this equals 0.08. -/
theorem lr_square_root_rule :
    (∀ bs n g : ℕ, resolveLr 0 bs n g =
      0.005 * Real.sqrt ((bs : ℝ) * ((n : ℝ) * (g : ℝ)))) ∧
    resolveLr 0 32 1 8 = 0.08 := by
  constructor
  · intro bs n g
    unfold resolveLr
    rw [if_pos rfl]
    have hc : ((bs * world_size n g : ℕ) : ℝ) =
        (bs : ℝ) * ((n : ℝ) * (g : ℝ)) := by
      push_cast [world_size]
      ring
    rw [hc]
  · unfold resolveLr
    rw [if_pos rfl]
    have h256 : ((32 * world_size 1 8 : ℕ) : ℝ) = (16 : ℝ) ^ 2 := by
      norm_num [world_size]
    rw [h256, Real.sqrt_sq (by norm_num : (0 : ℝ) ≤ 16)]
    norm_num

/-- C3: whichever branch `main` takes, running its steps against the
attribute set `parse_args` actually defines raises `AttributeError` (at
the read of `args.model`, the first of the four undefined attributes
`model`, `arch_depth`, `arch_width`, `arch_sk` that the `SimCLR.load`
call site needs), before the `SimCLR.load` call and before any training
step is reached. -/
theorem main_fails_before_training :
    ∀ multi : Bool,
      (runSteps parse_args_attrs (mainSteps multi)).2 = some .attributeError ∧
      MainStep.trainCall ∉ (runSteps parse_args_attrs (mainSteps multi)).1 ∧
      MainStep.loadModel ∉ (runSteps parse_args_attrs (mainSteps multi)).1 ∧
      MainStep.readAttr "model" ∈ (runSteps parse_args_attrs (mainSteps multi)).1 ∧
      "model" ∉ parse_args_attrs ∧ "arch_depth" ∉ parse_args_attrs ∧
      "arch_width" ∉ parse_args_attrs ∧ "arch_sk" ∉ parse_args_attrs := by
  decide

/-- C6: saving then loading on architecturally identical encoder and head
instances reconstructs exactly the saved parameter tensors, and the saved
checkpoint is a mapping with exactly the two keys `encoder` and `head`. -/
theorem save_load_round_trip (m : SimCLR) (e h : StateDict)
    (he : archOf e = archOf m.encoder)
    (hh : archOf h = archOf m.contrastive_head) :
    SimCLR.load (SimCLR.save m) e h = .ok ⟨m.encoder, m.contrastive_head⟩ ∧
    (SimCLR.save m).map Prod.fst = ["encoder", "head"] := by
  constructor
  · have hge : getKey (SimCLR.save m) "encoder" = .ok m.encoder := rfl
    have hgh : getKey (SimCLR.save m) "head" = .ok m.contrastive_head := rfl
    simp [SimCLR.load, load_state_dict, hge, hgh, he, hh]
  · rfl

/-- Witness for C6: a one-parameter encoder and a one-parameter head with
matching architectures round-trip through save/load. -/
theorem save_load_round_trip_witness :
    SimCLR.load
        (SimCLR.save ⟨[("w", ⟨[2], [1, 2]⟩)], [("v", ⟨[1], [3]⟩)]⟩)
        [("w", ⟨[2], [0, 0]⟩)] [("v", ⟨[1], [0]⟩)] =
      .ok ⟨[("w", ⟨[2], [1, 2]⟩)], [("v", ⟨[1], [3]⟩)]⟩ :=
  (save_load_round_trip ⟨[("w", ⟨[2], [1, 2]⟩)], [("v", ⟨[1], [3]⟩)]⟩
    [("w", ⟨[2], [0, 0]⟩)] [("v", ⟨[1], [0]⟩)] (by decide) (by decide)).1

/-- C9: on a checkpoint whose parameter names or shapes do not match the
provided encoder and head instances, `SimCLR.load` fails with the
state-mismatch error and produces no partially loaded composite; on a
matching checkpoint it injects the checkpoint weights into the two
provided instances and returns the composite built from exactly them. -/
theorem load_state_mismatch (ck : List (String × StateDict))
    (es hs e h : StateDict)
    (hce : ck.lookup "encoder" = some es) (hch : ck.lookup "head" = some hs) :
    (¬(archOf e = archOf es ∧ archOf h = archOf hs) →
        SimCLR.load ck e h = .error .stateMismatch) ∧
    ((archOf e = archOf es ∧ archOf h = archOf hs) →
        SimCLR.load ck e h = .ok ⟨es, hs⟩) := by
  have hge : getKey ck "encoder" = .ok es := by
    unfold getKey
    rw [hce]
  have hgh : getKey ck "head" = .ok hs := by
    unfold getKey
    rw [hch]
  constructor
  · intro hmis
    by_cases h1 : archOf e = archOf es
    · have h2 : ¬archOf h = archOf hs := fun h2 => hmis ⟨h1, h2⟩
      simp [SimCLR.load, load_state_dict, hge, hgh, h1, h2]
    · simp [SimCLR.load, load_state_dict, hge, h1]
  · rintro ⟨h1, h2⟩
    simp [SimCLR.load, load_state_dict, hge, hgh, h1, h2]

/-- Witness for C9: loading a checkpoint whose encoder tensor has shape
`[2]` into an encoder instance of shape `[3]` fails with the
state-mismatch error. -/
theorem load_state_mismatch_witness :
    SimCLR.load
        [("encoder", [("w", ⟨[2], [1, 2]⟩)]), ("head", [("v", ⟨[1], [3]⟩)])]
        [("w", ⟨[3], [0, 0, 0]⟩)] [("v", ⟨[1], [0]⟩)] =
      .error .stateMismatch :=
  (load_state_mismatch
    [("encoder", [("w", ⟨[2], [1, 2]⟩)]), ("head", [("v", ⟨[1], [3]⟩)])]
    [("w", ⟨[2], [1, 2]⟩)] [("v", ⟨[1], [3]⟩)]
    [("w", ⟨[3], [0, 0, 0]⟩)] [("v", ⟨[1], [0]⟩)] rfl rfl).1 (by decide)

/-- For a non-coordinating process, one epoch block contains no
filesystem-writing event. -/
theorem epochBlock_no_writes (rank : ℕ) (hr : rank ≠ 0) (dist hv : Bool)
    (wld : String) (e : ℕ) :
    (epochBlock rank dist hv wld e).filter isFsWrite = [] := by
  have h0 : (rank == 0) = false := by
    rw [Bool.eq_false_iff]
    intro hb
    exact hr (by simpa using hb)
  cases dist <;> simp [epochBlock, h0, isFsWrite]

/-- For a non-coordinating process, any sequence of epoch blocks contains
no filesystem-writing event. -/
theorem flatMap_no_writes (l : List ℕ) (rank : ℕ) (hr : rank ≠ 0)
    (dist hv : Bool) (wld : String) :
    ((l.flatMap (epochBlock rank dist hv wld)).filter isFsWrite) = [] := by
  induction l with
  | nil => rfl
  | cons a rest ih =>
      rw [List.flatMap_cons, List.filter_append, ih,
        epochBlock_no_writes rank hr dist hv wld a]
      rfl

/-- Checkpoint-save counting distributes over trace concatenation. -/
theorem ckptSavesAt_append (a b : List Eff) (e : ℕ) :
    ckptSavesAt (a ++ b) e = ckptSavesAt a e + ckptSavesAt b e := by
  simp [ckptSavesAt, List.filter_append]

/-- A rank-0 epoch block for epoch `e'` contains exactly one checkpoint
save, and it carries epoch index `e'`. -/
theorem ckptSavesAt_epochBlock (dist hv : Bool) (wld : String) (e' e : ℕ) :
    ckptSavesAt (epochBlock 0 dist hv wld e') e = if e' = e then 1 else 0 := by
  by_cases he : e' = e <;>
    cases dist <;> cases hv <;> simp [epochBlock, ckptSavesAt, he]

/-- Over a sequence of rank-0 epoch blocks, the number of checkpoint saves
for epoch `e` is the number of occurrences of `e` in the epoch list. -/
theorem ckptSavesAt_flatMap (l : List ℕ) (dist hv : Bool) (wld : String)
    (e : ℕ) :
    ckptSavesAt (l.flatMap (epochBlock 0 dist hv wld)) e = l.count e := by
  induction l with
  | nil => rfl
  | cons a rest ih =>
      rw [List.flatMap_cons, ckptSavesAt_append,
        ckptSavesAt_epochBlock dist hv wld a e, ih, List.count_cons]
      by_cases he : a = e <;> simp [he]
      <;> omega

/-- C7: in a full run, a process of non-zero global rank performs no
filesystem write to the log or checkpoint directories (no directory
creation, no metric logging, no checkpoint saving), while the rank-0
process writes exactly one checkpoint per completed epoch index and none
for any other index. -/
theorem rank_gated_writes (epochs rank : ℕ) (dist : Bool)
    (valDataset logDir ts : String) :
    (rank ≠ 0 →
      (runTrace epochs rank dist valDataset logDir ts).filter isFsWrite = []) ∧
    (∀ e, e < epochs →
      ckptSavesAt (runTrace epochs 0 dist valDataset logDir ts) e = 1) ∧
    (∀ e, epochs ≤ e →
      ckptSavesAt (runTrace epochs 0 dist valDataset logDir ts) e = 0) := by
  refine ⟨?_, ?_, ?_⟩
  · intro hr
    have h0 : (rank == 0) = false := by
      rw [Bool.eq_false_iff]
      intro hb
      exact hr (by simpa using hb)
    unfold runTrace trainTrace
    rw [h0]
    simp only [Bool.false_eq_true, if_false, List.nil_append]
    exact flatMap_no_writes (List.range epochs) rank hr dist
      (valEnabled valDataset) (logDir ++ "/" ++ ts)
  · intro e he
    unfold runTrace trainTrace
    rw [ckptSavesAt_append, ckptSavesAt_flatMap]
    have h1 : ckptSavesAt (if (0 == 0 : Bool) then
        [Eff.makedirs (logDir ++ "_models/" ++ ts)] else []) e = 0 := by
      simp [ckptSavesAt]
    rw [h1, List.count_eq_one_of_mem (List.nodup_range epochs)
      (List.mem_range.mpr he)]
  · intro e he
    unfold runTrace trainTrace
    rw [ckptSavesAt_append, ckptSavesAt_flatMap]
    have h1 : ckptSavesAt (if (0 == 0 : Bool) then
        [Eff.makedirs (logDir ++ "_models/" ++ ts)] else []) e = 0 := by
      simp [ckptSavesAt]
    rw [h1, List.count_eq_zero_of_not_mem]
    intro hc
    exact absurd (List.mem_range.mp hc) (by omega)

/-- Witness for C7: with 2 epochs, rank 1 produces no filesystem write,
and rank 0 saves exactly one checkpoint for epoch 0. -/
theorem rank_gated_writes_witness :
    (runTrace 2 1 true "None" "runs" "t").filter isFsWrite = [] ∧
    ckptSavesAt (runTrace 2 0 true "None" "runs" "t") 0 = 1 ∧
    ckptSavesAt (runTrace 2 0 true "None" "runs" "t") 5 = 0 :=
  ⟨(rank_gated_writes 2 1 true "None" "runs" "t").1 (by decide),
   (rank_gated_writes 2 0 true "None" "runs" "t").2.1 0 (by decide),
   (rank_gated_writes 2 0 true "None" "runs" "t").2.2 5 (by decide)⟩

/-- With validation disabled, an epoch block contains no validation call
and no validation-loss metric write. -/
theorem epochBlock_no_validation (rank : ℕ) (dist : Bool) (wld : String)
    (e' e : ℕ) :
    Eff.validateEpoch e ∉ epochBlock rank dist false wld e' ∧
    Eff.addScalar "Loss/validation" e ∉ epochBlock rank dist false wld e' := by
  have ht : ("Loss/validation" : String) ≠ "Loss/train" := by decide
  have hl : ("Loss/validation" : String) ≠ "Misc/learning_rate" := by decide
  cases hb : (rank == 0 : Bool) <;> cases dist <;>
    simp [epochBlock, hb, ht, hl]

/-- C8: when the `--val_dataset` argument is the sentinel `"None"`, a full
run never invokes `validate_one_epoch` and never logs a
`Loss/validation` metric. -/
theorem validation_skipped (epochs rank : ℕ) (dist : Bool)
    (valDataset logDir ts : String) (hval : valDataset = "None") :
    (∀ e, Eff.validateEpoch e ∉ runTrace epochs rank dist valDataset logDir ts) ∧
    (∀ e, Eff.addScalar "Loss/validation" e ∉
        runTrace epochs rank dist valDataset logDir ts) := by
  have hv : valEnabled valDataset = false := by
    rw [hval]
    rfl
  constructor
  · intro e hmem
    unfold runTrace trainTrace at hmem
    rw [hv] at hmem
    rcases List.mem_append.mp hmem with hm | hm
    · cases hb : (rank == 0 : Bool) <;> rw [hb] at hm <;> simp at hm
    · rcases List.mem_flatMap.mp hm with ⟨e', _, hm'⟩
      exact (epochBlock_no_validation rank dist (logDir ++ "/" ++ ts) e' e).1 hm'
  · intro e hmem
    unfold runTrace trainTrace at hmem
    rw [hv] at hmem
    rcases List.mem_append.mp hmem with hm | hm
    · cases hb : (rank == 0 : Bool) <;> rw [hb] at hm <;> simp at hm
    · rcases List.mem_flatMap.mp hm with ⟨e', _, hm'⟩
      exact (epochBlock_no_validation rank dist (logDir ++ "/" ++ ts) e' e).2 hm'

/-- Witness for C8: a concrete 2-epoch rank-0 run with the sentinel has no
validation call and no validation-loss metric for epoch 0. -/
theorem validation_skipped_witness :
    Eff.validateEpoch 0 ∉ runTrace 2 0 true "None" "runs" "t" ∧
    Eff.addScalar "Loss/validation" 0 ∉ runTrace 2 0 true "None" "runs" "t" :=
  ⟨(validation_skipped 2 0 true "None" "runs" "t" rfl).1 0,
   (validation_skipped 2 0 true "None" "runs" "t" rfl).2 0⟩

end SimCLRSpec
